import Mathlib

/-!
Shallow embedding of the auth microservice `AuthService` (file
`src/auth/auth.service.ts`): registration, login, token verification,
password change and profile update over a document store.

Modelling choices:
- The Mongo-backed user collection becomes an explicit `Store` (a list of
  users plus an id counter); each operation takes the store in and hands the
  possibly updated store back.
- `bcrypt` and the JWT service are external collaborators; they become
  records of functions (`Bcrypt`, `JwtService`), with soundness predicates
  (`Bcrypt.Sound`, `JwtService.RoundTrip`) standing for the guarantees the
  real libraries provide. The token itself is opaque to the service, so its
  type is a parameter.
- Every thrown `RpcException` becomes an `RpcError` value carrying its
  status and message; the try/catch wrapper that logs the error and
  re-throws `new RpcException(\x7b status: 400, message: error.message \x7d)`
  becomes: the operation result records the logged messages, and every
  surfaced error carries status 400 and the original message.
- Mongoose `findOneAndUpdate` without the `new: true` option returns the
  document as it was BEFORE the update (or null when nothing matched);
  the embedding mirrors that.
-/

/-- A persisted user document. `uid` stands for the Mongo `_id` (unique,
generated by the store). -/
structure User where
  uid : Nat
  email : String
  username : String
  password : String
deriving DecidableEq

/-- Replace the password field of a user document. -/
def User.withPassword (u : User) (p : String) : User :=
  ⟨u.uid, u.email, u.username, p⟩

/-- The user store: the persisted documents plus the next id the store will
generate on `create`. -/
structure Store where
  users : List User
  nextId : Nat
deriving DecidableEq

/-- `usersRepository.findOne(\x7b email \x7d)`. -/
def Store.findOneByEmail (s : Store) (email : String) : Option User :=
  s.users.find? (fun u => u.email == email)

/-- `usersRepository.findOne(\x7b username \x7d)`. -/
def Store.findOneByUsername (s : Store) (username : String) : Option User :=
  s.users.find? (fun u => u.username == username)

/-- `usersRepository.create(...)`: persists a new document with a
store-generated id and returns it. -/
def Store.create (s : Store) (email username password : String) : User × Store :=
  let u : User := ⟨s.nextId, email, username, password⟩
  (u, ⟨s.users ++ [u], s.nextId + 1⟩)

/-- `usersRepository.findOneAndUpdate` filtered by id: applies `upd` to the
matching document and returns the document as it was BEFORE the update
(mongoose default, no `new: true`), or `none` and an unchanged store when no
document matches. -/
def Store.findOneAndUpdateById (s : Store) (id : Nat) (upd : User → User) :
    Option User × Store :=
  match s.users.find? (fun u => u.uid == id) with
  | none => (none, s)
  | some u =>
      (some u, ⟨s.users.map (fun v => if v.uid == id then upd v else v), s.nextId⟩)

/-- The `bcrypt` collaborator: `hashSync(password, saltRounds)` and
`compareSync(plaintext, hash)`. -/
structure Bcrypt where
  hashSync : String → Nat → String
  compareSync : String → String → Bool

/-- What bcrypt guarantees: comparing a plaintext against a hash succeeds
exactly when the hash was produced from that plaintext. -/
def Bcrypt.Sound (B : Bcrypt) : Prop :=
  ∀ p q r, (B.compareSync q (B.hashSync p r) = true ↔ q = p)

/-- The payload signed into a token: id, email, username. -/
structure JwtPayload where
  id : String
  email : String
  username : String
deriving DecidableEq

/-- What `jwtService.verify` hands back: the signed payload fields together
with the standard claims (subject, issued-at, expiry) the JWT layer adds. -/
structure VerifiedClaims where
  sub : Option String
  iat : Option Nat
  exp : Option Nat
  id : String
  email : String
  username : String
deriving DecidableEq

/-- The rest pattern of `const \x7b sub, iat, exp, ...data \x7d = verify(...)`:
the verified claims with the standard claims stripped off. -/
def VerifiedClaims.payload (c : VerifiedClaims) : JwtPayload :=
  ⟨c.id, c.email, c.username⟩

/-- The JWT collaborator. The token is opaque to `AuthService` (it is only
produced by `sign` and consumed by `verify`), so its type `τ` is a
parameter; in the running system it is a string. Both verification sites
(`verifyUser`, which passes `envs.jwtSecret` explicitly, and
`changePassword`, which relies on the module-level secret) use the same
secret, hence the same `verify`. -/
structure JwtService (τ : Type) where
  sign : JwtPayload → τ
  verify : τ → Except String VerifiedClaims

/-- What the JWT library guarantees: verifying a token freshly signed with
the same secret succeeds, and the non-standard claims are exactly the signed
payload. -/
def JwtService.RoundTrip {τ : Type} (J : JwtService τ) : Prop :=
  ∀ p, ∃ c : VerifiedClaims, J.verify (J.sign p) = Except.ok c ∧ c.payload = p

/-- A structured error as carried by `RpcException`: status code and
message. -/
structure RpcError where
  status : Nat
  message : String
deriving DecidableEq

/-- Outcome of one service call: the response or the surfaced error, the
store after the call, and the messages passed to `logger.error`. -/
structure OpResult (α : Type) where
  result : Except RpcError α
  store : Store
  log : List String

instance {ε α : Type} [DecidableEq ε] [DecidableEq α] : DecidableEq (Except ε α)
  | Except.error a, Except.error b =>
      if h : a = b then isTrue (by rw [h]) else isFalse (by intro hc; cases hc; exact h rfl)
  | Except.error _, Except.ok _ => isFalse (by intro hc; cases hc)
  | Except.ok _, Except.error _ => isFalse (by intro hc; cases hc)
  | Except.ok a, Except.ok b =>
      if h : a = b then isTrue (by rw [h]) else isFalse (by intro hc; cases hc; exact h rfl)

instance {α : Type} [DecidableEq α] : DecidableEq (OpResult α) := fun a b =>
  match a, b with
  | ⟨r₁, s₁, l₁⟩, ⟨r₂, s₂, l₂⟩ =>
      if h : r₁ = r₂ ∧ s₁ = s₂ ∧ l₁ = l₂ then
        isTrue (by obtain ⟨h₁, h₂, h₃⟩ := h; rw [h₁, h₂, h₃])
      else
        isFalse (by intro hc; cases hc; exact h ⟨rfl, rfl, rfl⟩)

structure RegisterUserDto where
  email : String
  username : String
  password : String
deriving DecidableEq

structure LoginUserDto where
  email : String
  password : String
deriving DecidableEq

/-- `ChangePasswordDto` (file `src/auth/dto/change_password.dto.ts`): the
bearer token, the current password, the new password and its repetition
(the repetition is checked upstream by the validation layer and never read
by the service). -/
structure ChangePasswordDto (τ : Type) where
  token : τ
  password : String
  newPassword : String
  repeatNewPassword : String
deriving DecidableEq

/-- Modelled from the spec: `UpdateUserDto` is not under the sources at
hand, only its use in `updateUser` is. Per the spec, `updateUser(id,
...fields)` applies a partial update of arbitrary fields to the user
identified by id, and a user document holds email, username, password and
profile fields; so the dto is the id plus an optional value for each
updatable document field. -/
structure UpdateUserDto where
  id : Nat
  email : Option String
  username : Option String
  password : Option String
deriving DecidableEq

/-- The mongoose update applied by `findOneAndUpdate(\x7b _id: id \x7d,
updateUserDto)`: every field the dto provides is set verbatim, the rest are
untouched (the `id` field itself is not a schema path and is dropped). -/
def UpdateUserDto.applyTo (dto : UpdateUserDto) (u : User) : User :=
  ⟨u.uid, dto.email.getD u.email, dto.username.getD u.username,
    dto.password.getD u.password⟩

structure RegisterUserResponse (τ : Type) where
  data : User
  token : τ
  message : String
deriving DecidableEq

structure LoginUserResponse (τ : Type) where
  user : User
  token : τ
  message : String
deriving DecidableEq

structure VerifyUserResponse (τ : Type) where
  user : JwtPayload
  token : τ
  message : String
deriving DecidableEq

structure ChangePasswordResponse where
  data : Option User
  message : String
deriving DecidableEq

structure UpdateUserResponse where
  data : UpdateUserDto
  message : String
deriving DecidableEq

/-- `AuthService.signJWT`: `return this.jwtService.sign(payload)`. -/
def AuthService.signJWT {τ : Type} (J : JwtService τ) (payload : JwtPayload) : τ :=
  J.sign payload

/-- `AuthService.registerUser` (lines 36-77). Finds a user by email; if one
exists, throws `\x7b 400, 'User already exists' \x7d` — caught by the
wrapper, logged, and re-surfaced as `\x7b 400, error.message \x7d`.
Otherwise creates the user with the bcrypt hash of the password and returns
the persisted document, a token over id/email/username, and a message. -/
def AuthService.registerUser {τ : Type} (B : Bcrypt) (J : JwtService τ)
    (s : Store) (dto : RegisterUserDto) : OpResult (RegisterUserResponse τ) :=
  match s.findOneByEmail dto.email with
  | some _ =>
      ⟨Except.error ⟨400, "User already exists"⟩, s, ["User already exists"]⟩
  | none =>
      let created := s.create dto.email dto.username (B.hashSync dto.password 10)
      let newUser := created.1
      ⟨Except.ok ⟨newUser,
          AuthService.signJWT J ⟨toString newUser.uid, newUser.email, newUser.username⟩,
          "The user was created successfully"⟩,
        created.2, []⟩

/-- `AuthService.loginUser` (lines 84-129). Finds a user by email; a missing
user and a failed `bcrypt.compareSync` both throw
`\x7b 400, 'User/Password not valid' \x7d` — caught, logged and re-surfaced
as `\x7b 400, error.message \x7d`. On success returns the stored document, a
fresh token over id/email/username, and a message. -/
def AuthService.loginUser {τ : Type} (B : Bcrypt) (J : JwtService τ)
    (s : Store) (dto : LoginUserDto) : OpResult (LoginUserResponse τ) :=
  match s.findOneByEmail dto.email with
  | none =>
      ⟨Except.error ⟨400, "User/Password not valid"⟩, s, ["User/Password not valid"]⟩
  | some user =>
      if B.compareSync dto.password user.password then
        ⟨Except.ok ⟨user,
            AuthService.signJWT J ⟨toString user.uid, user.email, user.username⟩,
            "The user logged in correctly"⟩,
          s, []⟩
      else
        ⟨Except.error ⟨400, "User/Password not valid"⟩, s, ["User/Password not valid"]⟩

/-- `AuthService.verifyUser` (lines 136-161). Verifies the token (a failure
is caught, logged and surfaced as `\x7b 400, error.message \x7d`), strips
sub/iat/exp by rest-destructuring, and returns the remaining fields together
with a fresh token signed over them. -/
def AuthService.verifyUser {τ : Type} (J : JwtService τ)
    (s : Store) (token : τ) : OpResult (VerifyUserResponse τ) :=
  match J.verify token with
  | Except.error msg => ⟨Except.error ⟨400, msg⟩, s, [msg]⟩
  | Except.ok claims =>
      let data := claims.payload
      ⟨Except.ok ⟨data, AuthService.signJWT J data, "Successfully verified user"⟩, s, []⟩

/-- `AuthService.changePassword` (lines 168-213). Verifies the token, looks
the user up by the username of the decoded payload (`\x7b 400, 'User not
valid' \x7d` when absent), compares the submitted password against the
stored hash (`\x7b 400, 'Password not valid' \x7d` on mismatch), then
`findOneAndUpdate`s the stored hash to the bcrypt hash of the new password
and returns whatever `findOneAndUpdate` returned (the pre-update document).
All throws are caught, logged and surfaced as `\x7b 400, error.message \x7d`. -/
def AuthService.changePassword {τ : Type} (B : Bcrypt) (J : JwtService τ)
    (s : Store) (dto : ChangePasswordDto τ) : OpResult ChangePasswordResponse :=
  match J.verify dto.token with
  | Except.error msg => ⟨Except.error ⟨400, msg⟩, s, [msg]⟩
  | Except.ok decoded =>
      match s.findOneByUsername decoded.username with
      | none => ⟨Except.error ⟨400, "User not valid"⟩, s, ["User not valid"]⟩
      | some user =>
          if B.compareSync dto.password user.password then
            let updated := s.findOneAndUpdateById user.uid
              (fun u => u.withPassword (B.hashSync dto.newPassword 10))
            ⟨Except.ok ⟨updated.1, "Password changed successfully"⟩, updated.2, []⟩
          else
            ⟨Except.error ⟨400, "Password not valid"⟩, s, ["Password not valid"]⟩

/-- `AuthService.updateUser` (lines 220-238). No try/catch and no hashing:
`findOneAndUpdate(\x7b _id: id \x7d, updateUserDto)` applies the submitted
fields verbatim; when nothing matched it throws `\x7b 400, "User\x27s
information could not be updated" \x7d` (not logged — there is no catch
block); on success it returns the dto as submitted, not the stored
document. -/
def AuthService.updateUser (s : Store) (dto : UpdateUserDto) :
    OpResult UpdateUserResponse :=
  let updated := s.findOneAndUpdateById dto.id dto.applyTo
  match updated.1 with
  | none =>
      ⟨Except.error ⟨400, "User\x27s information could not be updated"⟩, updated.2, []⟩
  | some _ =>
      ⟨Except.ok ⟨dto, "User information updated correctly"⟩, updated.2, []⟩

/-! Concrete collaborator instances, used to exhibit that the hypotheses of
the theorems below are satisfiable. -/

/-- A concrete bcrypt stand-in: the "hash" tags the plaintext, the compare
re-tags and checks equality. It satisfies `Bcrypt.Sound`. -/
def demoBcrypt : Bcrypt :=
  ⟨fun p _ => "bc:" ++ p, fun q h => h == "bc:" ++ q⟩

/-- A concrete JWT stand-in over `Option JwtPayload` tokens: signing wraps
the payload, verifying unwraps it and adds standard claims; the `none` token
is the malformed token every verification rejects. -/
def demoJwt : JwtService (Option JwtPayload) :=
  ⟨fun p => some p,
    fun t =>
      match t with
      | none => Except.error "jwt must be provided"
      | some p => Except.ok ⟨some p.id, some 1, some 36001, p.id, p.email, p.username⟩⟩

def demoStoreEmpty : Store := ⟨[], 1⟩

def demoRegDto : RegisterUserDto := ⟨"a@x.com", "alice", "Secret123"⟩

/-- The document `registerUser demoRegDto` persists into the empty store. -/
def demoUser : User := ⟨1, "a@x.com", "alice", "bc:Secret123"⟩

def demoStore1 : Store := ⟨[demoUser], 2⟩

def demoCpDto : ChangePasswordDto (Option JwtPayload) :=
  ⟨some ⟨"1", "a@x.com", "alice"⟩, "Secret123", "NewSecret9", "NewSecret9"⟩

def demoUpdateDto : UpdateUserDto := ⟨1, none, none, some "PlainText1"⟩

theorem demoBcrypt_sound : demoBcrypt.Sound := by
  intro p q r
  simp only [demoBcrypt, beq_iff_eq]
  constructor
  · intro h
    have hd := congrArg String.data h
    simp only [String.data_append] at hd
    exact (String.ext (List.append_cancel_left hd)).symm
  · intro h
    rw [h]

theorem demoJwt_roundTrip : demoJwt.RoundTrip := by
  intro p
  exact ⟨⟨some p.id, some 1, some 36001, p.id, p.email, p.username⟩, rfl, rfl⟩

/-- C1: for every valid email and password, `loginUser(email, password)`
after a successful `registerUser(email, password)` succeeds — the stored
bcrypt hash compares true against the submitted password — and returns a
token that `verifyUser` accepts. -/
theorem C1_login_after_register {τ : Type} (B : Bcrypt) (J : JwtService τ)
    (s : Store) (dto : RegisterUserDto)
    (hB : B.Sound) (hJ : J.RoundTrip)
    (hfresh : s.findOneByEmail dto.email = none) :
    ∃ resp : LoginUserResponse τ,
      (AuthService.loginUser B J (AuthService.registerUser B J s dto).store
          ⟨dto.email, dto.password⟩).result = Except.ok resp ∧
      B.compareSync dto.password resp.user.password = true ∧
      (AuthService.verifyUser J (AuthService.registerUser B J s dto).store
          resp.token).result.isOk = true := by
  have hreg : (AuthService.registerUser B J s dto).store =
      ⟨s.users ++ [⟨s.nextId, dto.email, dto.username, B.hashSync dto.password 10⟩],
        s.nextId + 1⟩ := by
    simp [AuthService.registerUser, hfresh, Store.create]
  have hfind : Store.findOneByEmail (AuthService.registerUser B J s dto).store dto.email
      = some ⟨s.nextId, dto.email, dto.username, B.hashSync dto.password 10⟩ := by
    rw [hreg]
    unfold Store.findOneByEmail at hfresh ⊢
    simp only [List.find?_append, hfresh]
    simp
  have hcmp : B.compareSync dto.password (B.hashSync dto.password 10) = true :=
    (hB _ _ _).mpr rfl
  obtain ⟨c, hc, hcp⟩ := hJ ⟨toString s.nextId, dto.email, dto.username⟩
  refine ⟨⟨⟨s.nextId, dto.email, dto.username, B.hashSync dto.password 10⟩,
      AuthService.signJWT J ⟨toString s.nextId, dto.email, dto.username⟩,
      "The user logged in correctly"⟩, ?_, hcmp, ?_⟩
  · simp [AuthService.loginUser, hfind, hcmp]
  · simp [AuthService.verifyUser, AuthService.signJWT, hc, Except.isOk, Except.toBool]

/-- C1 witness: the theorem applied to the concrete collaborators, the
empty store and a concrete registration. -/
theorem C1_witness :
    ∃ resp : LoginUserResponse (Option JwtPayload),
      (AuthService.loginUser demoBcrypt demoJwt
          (AuthService.registerUser demoBcrypt demoJwt demoStoreEmpty demoRegDto).store
          ⟨demoRegDto.email, demoRegDto.password⟩).result = Except.ok resp ∧
      demoBcrypt.compareSync demoRegDto.password resp.user.password = true ∧
      (AuthService.verifyUser demoJwt
          (AuthService.registerUser demoBcrypt demoJwt demoStoreEmpty demoRegDto).store
          resp.token).result.isOk = true :=
  C1_login_after_register demoBcrypt demoJwt demoStoreEmpty demoRegDto
    demoBcrypt_sound demoJwt_roundTrip rfl

/-- C2: when the store already holds a user with the submitted email,
`registerUser` fails with the already-exists error (status 400, message
"User already exists") and hands back the store unchanged, so the existing
record is untouched. -/
theorem C2_register_existing_email {τ : Type} (B : Bcrypt) (J : JwtService τ)
    (s : Store) (dto : RegisterUserDto) (u : User)
    (hexists : s.findOneByEmail dto.email = some u) :
    (AuthService.registerUser B J s dto).result
        = Except.error ⟨400, "User already exists"⟩ ∧
    (AuthService.registerUser B J s dto).store = s := by
  simp [AuthService.registerUser, hexists]

/-- C2 witness: registering `demoRegDto` against the store already holding
`demoUser` (same email). -/
theorem C2_witness :
    (AuthService.registerUser demoBcrypt demoJwt demoStore1 demoRegDto).result
        = Except.error ⟨400, "User already exists"⟩ ∧
    (AuthService.registerUser demoBcrypt demoJwt demoStore1 demoRegDto).store
        = demoStore1 :=
  C2_register_existing_email demoBcrypt demoJwt demoStore1 demoRegDto demoUser rfl

/-- C3: the error `loginUser` surfaces when no user matches the email is
identical — same status and same message, and even the same logged line —
to the error it surfaces when the email matches but the bcrypt comparison
fails, so the caller cannot tell the two failure causes apart. -/
theorem C3_login_failures_identical {τ : Type} (B : Bcrypt) (J : JwtService τ)
    (s : Store) (dto : LoginUserDto) :
    (s.findOneByEmail dto.email = none →
      (AuthService.loginUser B J s dto).result
          = Except.error ⟨400, "User/Password not valid"⟩ ∧
      (AuthService.loginUser B J s dto).log = ["User/Password not valid"]) ∧
    (∀ u, s.findOneByEmail dto.email = some u →
      B.compareSync dto.password u.password = false →
      (AuthService.loginUser B J s dto).result
          = Except.error ⟨400, "User/Password not valid"⟩ ∧
      (AuthService.loginUser B J s dto).log = ["User/Password not valid"]) := by
  constructor
  · intro h
    simp [AuthService.loginUser, h]
  · intro u h hc
    simp [AuthService.loginUser, h, hc]

/-- C3 witness: an unknown email against the demo store, and the known
email with a wrong password, both yield the error
`⟨400, "User/Password not valid"⟩`. -/
theorem C3_witness :
    ((AuthService.loginUser demoBcrypt demoJwt demoStore1
        ⟨"nobody@x.com", "Whatever1"⟩).result
          = Except.error ⟨400, "User/Password not valid"⟩ ∧
      (AuthService.loginUser demoBcrypt demoJwt demoStore1
        ⟨"nobody@x.com", "Whatever1"⟩).log = ["User/Password not valid"]) ∧
    ((AuthService.loginUser demoBcrypt demoJwt demoStore1
        ⟨"a@x.com", "WrongPass1"⟩).result
          = Except.error ⟨400, "User/Password not valid"⟩ ∧
      (AuthService.loginUser demoBcrypt demoJwt demoStore1
        ⟨"a@x.com", "WrongPass1"⟩).log = ["User/Password not valid"]) :=
  ⟨(C3_login_failures_identical demoBcrypt demoJwt demoStore1
      ⟨"nobody@x.com", "Whatever1"⟩).1 (by decide),
    (C3_login_failures_identical demoBcrypt demoJwt demoStore1
      ⟨"a@x.com", "WrongPass1"⟩).2 demoUser (by decide) (by decide)⟩

/-- C4: for every payload with id/email/username,
`verifyUser(signJWT(payload))` succeeds; the standard claims the JWT layer
added (sub, iat, exp) are stripped, the returned user object carries exactly
the original id/email/username, and the returned token is a fresh signature
over those remaining fields. -/
theorem C4_verify_sign_roundtrip {τ : Type} (J : JwtService τ) (s : Store)
    (p : JwtPayload) (hJ : J.RoundTrip) :
    (AuthService.verifyUser J s (AuthService.signJWT J p)).result
        = Except.ok ⟨p, AuthService.signJWT J p, "Successfully verified user"⟩ := by
  obtain ⟨c, hc, hcp⟩ := hJ p
  simp [AuthService.verifyUser, AuthService.signJWT, hc, hcp]

/-- C4 witness: the round trip at a concrete payload under the demo JWT
service. -/
theorem C4_witness :
    (AuthService.verifyUser demoJwt demoStore1
        (AuthService.signJWT demoJwt ⟨"1", "a@x.com", "alice"⟩)).result
      = Except.ok ⟨⟨"1", "a@x.com", "alice"⟩,
          AuthService.signJWT demoJwt ⟨"1", "a@x.com", "alice"⟩,
          "Successfully verified user"⟩ :=
  C4_verify_sign_roundtrip demoJwt demoStore1 ⟨"1", "a@x.com", "alice"⟩
    demoJwt_roundTrip

/-- C6: `changePassword` checks its failure conditions in order — a failing
token verification surfaces that failure (status 400) first, then a missing
user for the decoded username surfaces `⟨400, "User not valid"⟩`, then a
failing comparison of the old password against the stored hash surfaces
`⟨400, "Password not valid"⟩` — and each of the three failure cases leaves
the store, hence the stored password hash, unchanged. -/
theorem C6_changePassword_failure_order {τ : Type} (B : Bcrypt) (J : JwtService τ)
    (s : Store) (dto : ChangePasswordDto τ) :
    (∀ msg, J.verify dto.token = Except.error msg →
      (AuthService.changePassword B J s dto).result = Except.error ⟨400, msg⟩ ∧
      (AuthService.changePassword B J s dto).store = s) ∧
    (∀ decoded, J.verify dto.token = Except.ok decoded →
      s.findOneByUsername decoded.username = none →
      (AuthService.changePassword B J s dto).result
          = Except.error ⟨400, "User not valid"⟩ ∧
      (AuthService.changePassword B J s dto).store = s) ∧
    (∀ decoded u, J.verify dto.token = Except.ok decoded →
      s.findOneByUsername decoded.username = some u →
      B.compareSync dto.password u.password = false →
      (AuthService.changePassword B J s dto).result
          = Except.error ⟨400, "Password not valid"⟩ ∧
      (AuthService.changePassword B J s dto).store = s) := by
  refine ⟨?_, ?_, ?_⟩
  · intro msg h
    simp [AuthService.changePassword, h]
  · intro decoded h hu
    simp [AuthService.changePassword, h, hu]
  · intro decoded u h hu hc
    simp [AuthService.changePassword, h, hu, hc]

/-- C6 witness: the three failure cases at concrete inputs — the malformed
`none` token; a token for an unknown username; the right token with a wrong
old password — each leaving the demo store unchanged. -/
theorem C6_witness :
    ((AuthService.changePassword demoBcrypt demoJwt demoStore1
        ⟨none, "Secret123", "NewSecret9", "NewSecret9"⟩).result
          = Except.error ⟨400, "jwt must be provided"⟩ ∧
      (AuthService.changePassword demoBcrypt demoJwt demoStore1
        ⟨none, "Secret123", "NewSecret9", "NewSecret9"⟩).store = demoStore1) ∧
    ((AuthService.changePassword demoBcrypt demoJwt demoStore1
        ⟨some ⟨"9", "z@x.com", "zoe"⟩, "Secret123", "NewSecret9", "NewSecret9"⟩).result
          = Except.error ⟨400, "User not valid"⟩ ∧
      (AuthService.changePassword demoBcrypt demoJwt demoStore1
        ⟨some ⟨"9", "z@x.com", "zoe"⟩, "Secret123", "NewSecret9", "NewSecret9"⟩).store
          = demoStore1) ∧
    ((AuthService.changePassword demoBcrypt demoJwt demoStore1
        ⟨some ⟨"1", "a@x.com", "alice"⟩, "WrongPass1", "NewSecret9", "NewSecret9"⟩).result
          = Except.error ⟨400, "Password not valid"⟩ ∧
      (AuthService.changePassword demoBcrypt demoJwt demoStore1
        ⟨some ⟨"1", "a@x.com", "alice"⟩, "WrongPass1", "NewSecret9", "NewSecret9"⟩).store
          = demoStore1) :=
  ⟨(C6_changePassword_failure_order demoBcrypt demoJwt demoStore1
      ⟨none, "Secret123", "NewSecret9", "NewSecret9"⟩).1 "jwt must be provided" rfl,
    (C6_changePassword_failure_order demoBcrypt demoJwt demoStore1
      ⟨some ⟨"9", "z@x.com", "zoe"⟩, "Secret123", "NewSecret9", "NewSecret9"⟩).2.1
      ⟨some "9", some 1, some 36001, "9", "z@x.com", "zoe"⟩ rfl (by decide),
    (C6_changePassword_failure_order demoBcrypt demoJwt demoStore1
      ⟨some ⟨"1", "a@x.com", "alice"⟩, "WrongPass1", "NewSecret9", "NewSecret9"⟩).2.2
      ⟨some "1", some 1, some 36001, "1", "a@x.com", "alice"⟩ demoUser rfl (by decide)
      (by decide)⟩

/-- C9: when a user with the submitted id exists, `updateUser` applies the
partial update to that document and returns in `data` the dto exactly as
submitted (not the post-update record read back from the store); when no
user with that id exists, it fails with `⟨400, "User\x27s information could
not be updated"⟩` and performs no write. -/
theorem C9_updateUser_submitted_fields (s : Store) (dto : UpdateUserDto) :
    (∀ u, s.users.find? (fun v => v.uid == dto.id) = some u →
      (AuthService.updateUser s dto).result
          = Except.ok ⟨dto, "User information updated correctly"⟩ ∧
      (AuthService.updateUser s dto).store.users
          = s.users.map (fun v => if v.uid == dto.id then dto.applyTo v else v)) ∧
    (s.users.find? (fun v => v.uid == dto.id) = none →
      (AuthService.updateUser s dto).result
          = Except.error ⟨400, "User\x27s information could not be updated"⟩ ∧
      (AuthService.updateUser s dto).store = s) := by
  constructor
  · intro u h
    simp [AuthService.updateUser, Store.findOneAndUpdateById, h]
  · intro h
    simp [AuthService.updateUser, Store.findOneAndUpdateById, h]

/-- C9 witness: an update to the existing id 1 returns the submitted dto
and rewrites the store; the same update against the empty store fails with
the not-found error and writes nothing. -/
theorem C9_witness :
    ((AuthService.updateUser demoStore1 demoUpdateDto).result
        = Except.ok ⟨demoUpdateDto, "User information updated correctly"⟩ ∧
      (AuthService.updateUser demoStore1 demoUpdateDto).store.users
        = demoStore1.users.map
            (fun v => if v.uid == demoUpdateDto.id then demoUpdateDto.applyTo v else v)) ∧
    ((AuthService.updateUser demoStoreEmpty demoUpdateDto).result
        = Except.error ⟨400, "User\x27s information could not be updated"⟩ ∧
      (AuthService.updateUser demoStoreEmpty demoUpdateDto).store = demoStoreEmpty) :=
  ⟨(C9_updateUser_submitted_fields demoStore1 demoUpdateDto).1 demoUser (by decide),
    (C9_updateUser_submitted_fields demoStoreEmpty demoUpdateDto).2 rfl⟩

/-- C10: the user object inside a successful `registerUser` or `loginUser`
response is the persisted document itself, password hash included: the
registration response carries the freshly created document whose password
field is the bcrypt hash, and the login response carries the stored document
verbatim. -/
theorem C10_response_contains_stored_hash {τ : Type} (B : Bcrypt) (J : JwtService τ)
    (s : Store) (rdto : RegisterUserDto) (ldto : LoginUserDto) :
    (s.findOneByEmail rdto.email = none →
      (AuthService.registerUser B J s rdto).result
          = Except.ok ⟨⟨s.nextId, rdto.email, rdto.username, B.hashSync rdto.password 10⟩,
              AuthService.signJWT J ⟨toString s.nextId, rdto.email, rdto.username⟩,
              "The user was created successfully"⟩ ∧
      (⟨s.nextId, rdto.email, rdto.username, B.hashSync rdto.password 10⟩ : User)
          ∈ (AuthService.registerUser B J s rdto).store.users) ∧
    (∀ u, s.findOneByEmail ldto.email = some u →
      B.compareSync ldto.password u.password = true →
      (AuthService.loginUser B J s ldto).result
          = Except.ok ⟨u, AuthService.signJWT J ⟨toString u.uid, u.email, u.username⟩,
              "The user logged in correctly"⟩) := by
  constructor
  · intro h
    simp [AuthService.registerUser, h, Store.create]
  · intro u h hc
    simp [AuthService.loginUser, h, hc]

/-- C10 witness: a concrete registration into the empty store returns the
persisted document with its bcrypt hash, and a concrete login returns the
stored document verbatim. -/
theorem C10_witness :
    ((AuthService.registerUser demoBcrypt demoJwt demoStoreEmpty demoRegDto).result
        = Except.ok ⟨⟨demoStoreEmpty.nextId, demoRegDto.email, demoRegDto.username,
              demoBcrypt.hashSync demoRegDto.password 10⟩,
            AuthService.signJWT demoJwt
              ⟨toString demoStoreEmpty.nextId, demoRegDto.email, demoRegDto.username⟩,
            "The user was created successfully"⟩ ∧
      (⟨demoStoreEmpty.nextId, demoRegDto.email, demoRegDto.username,
          demoBcrypt.hashSync demoRegDto.password 10⟩ : User)
        ∈ (AuthService.registerUser demoBcrypt demoJwt demoStoreEmpty demoRegDto).store.users) ∧
    (AuthService.loginUser demoBcrypt demoJwt demoStore1 ⟨"a@x.com", "Secret123"⟩).result
        = Except.ok ⟨demoUser,
            AuthService.signJWT demoJwt
              ⟨toString demoUser.uid, demoUser.email, demoUser.username⟩,
            "The user logged in correctly"⟩ :=
  ⟨(C10_response_contains_stored_hash demoBcrypt demoJwt demoStoreEmpty demoRegDto
      ⟨"a@x.com", "Secret123"⟩).1 rfl,
    (C10_response_contains_stored_hash demoBcrypt demoJwt demoStore1 demoRegDto
      ⟨"a@x.com", "Secret123"⟩).2 demoUser rfl (by decide)⟩

/-- Any document in the store after a `findOneAndUpdateById` is either an
untouched old document or the update applied to an old document. -/
theorem Store.mem_findOneAndUpdateById (s : Store) (id : Nat) (upd : User → User)
    (v : User) (hv : v ∈ (s.findOneAndUpdateById id upd).2.users) :
    v ∈ s.users ∨ ∃ w ∈ s.users, v = upd w := by
  unfold Store.findOneAndUpdateById at hv
  cases h : s.users.find? (fun u => u.uid == id) with
  | none => rw [h] at hv; exact Or.inl hv
  | some u =>
      rw [h] at hv
      simp only [List.mem_map] at hv
      obtain ⟨x, hx, hfx⟩ := hv
      cases h5 : (x.uid == id) with
      | true =>
          simp only [h5, if_true] at hfx
          exact Or.inr ⟨x, hx, hfx.symm⟩
      | false =>
          simp only [h5, Bool.false_eq_true, if_false] at hfx
          exact Or.inl (hfx ▸ hx)

/-- C5 (amended): for a user reachable by a valid token, `changePassword`
with the correct old password succeeds, replaces the stored hash with the
hash of the new password — so a subsequent `loginUser` with the new
password succeeds and, provided the new password differs from the old one,
`loginUser` with the old password fails — and returns in `data` the record
as it was BEFORE the update (the mongoose `findOneAndUpdate` default), not
the updated record. -/
theorem C5_changePassword_success {τ : Type} (B : Bcrypt) (J : JwtService τ)
    (s : Store) (dto : ChangePasswordDto τ) (decoded : VerifiedClaims) (u : User)
    (hB : B.Sound)
    (hver : J.verify dto.token = Except.ok decoded)
    (huser : s.findOneByUsername decoded.username = some u)
    (hcmp : B.compareSync dto.password u.password = true)
    (hid : s.users.find? (fun v => v.uid == u.uid) = some u)
    (hemail : s.findOneByEmail u.email = some u)
    (hne : dto.password ≠ dto.newPassword) :
    (AuthService.changePassword B J s dto).result
        = Except.ok ⟨some u, "Password changed successfully"⟩ ∧
    (AuthService.changePassword B J s dto).store.findOneByEmail u.email
        = some (u.withPassword (B.hashSync dto.newPassword 10)) ∧
    (AuthService.loginUser B J (AuthService.changePassword B J s dto).store
        ⟨u.email, dto.newPassword⟩).result
        = Except.ok ⟨u.withPassword (B.hashSync dto.newPassword 10),
            AuthService.signJWT J ⟨toString u.uid, u.email, u.username⟩,
            "The user logged in correctly"⟩ ∧
    (AuthService.loginUser B J (AuthService.changePassword B J s dto).store
        ⟨u.email, dto.password⟩).result
        = Except.error ⟨400, "User/Password not valid"⟩ := by
  have hres : (AuthService.changePassword B J s dto).result
      = Except.ok ⟨some u, "Password changed successfully"⟩ := by
    simp [AuthService.changePassword, hver, huser, hcmp, Store.findOneAndUpdateById, hid]
  have hstore : (AuthService.changePassword B J s dto).store
      = ⟨s.users.map (fun v => if v.uid == u.uid
            then v.withPassword (B.hashSync dto.newPassword 10) else v), s.nextId⟩ := by
    simp [AuthService.changePassword, hver, huser, hcmp, Store.findOneAndUpdateById, hid]
  unfold Store.findOneByEmail at hemail
  have hfind : (AuthService.changePassword B J s dto).store.findOneByEmail u.email
      = some (u.withPassword (B.hashSync dto.newPassword 10)) := by
    rw [hstore]
    unfold Store.findOneByEmail
    rw [List.find?_map]
    have hco : ((fun v : User => v.email == u.email) ∘
        (fun v : User => if v.uid == u.uid
            then v.withPassword (B.hashSync dto.newPassword 10) else v))
        = fun v : User => v.email == u.email := by
      funext v
      simp only [Function.comp]
      cases h5 : (v.uid == u.uid) <;> simp [h5, User.withPassword]
    rw [hco, hemail]
    simp [User.withPassword]
  have hcmpNew : B.compareSync dto.newPassword (B.hashSync dto.newPassword 10) = true :=
    (hB _ _ _).mpr rfl
  have hcmpOld : B.compareSync dto.password (B.hashSync dto.newPassword 10) = false := by
    cases h : B.compareSync dto.password (B.hashSync dto.newPassword 10) with
    | false => rfl
    | true => exact absurd ((hB _ _ _).mp h) hne
  refine ⟨hres, hfind, ?_, ?_⟩
  · simp [AuthService.loginUser, hfind, User.withPassword, hcmpNew]
  · simp [AuthService.loginUser, hfind, User.withPassword, hcmpOld]

/-- C5 witness: the amended theorem at the demo store, demo collaborators
and the concrete password change from "Secret123" to "NewSecret9". -/
theorem C5_witness :
    (AuthService.changePassword demoBcrypt demoJwt demoStore1 demoCpDto).result
        = Except.ok ⟨some demoUser, "Password changed successfully"⟩ ∧
    (AuthService.changePassword demoBcrypt demoJwt demoStore1 demoCpDto).store.findOneByEmail
        demoUser.email
        = some (demoUser.withPassword (demoBcrypt.hashSync demoCpDto.newPassword 10)) ∧
    (AuthService.loginUser demoBcrypt demoJwt
        (AuthService.changePassword demoBcrypt demoJwt demoStore1 demoCpDto).store
        ⟨demoUser.email, demoCpDto.newPassword⟩).result
        = Except.ok ⟨demoUser.withPassword (demoBcrypt.hashSync demoCpDto.newPassword 10),
            AuthService.signJWT demoJwt
              ⟨toString demoUser.uid, demoUser.email, demoUser.username⟩,
            "The user logged in correctly"⟩ ∧
    (AuthService.loginUser demoBcrypt demoJwt
        (AuthService.changePassword demoBcrypt demoJwt demoStore1 demoCpDto).store
        ⟨demoUser.email, demoCpDto.password⟩).result
        = Except.error ⟨400, "User/Password not valid"⟩ :=
  C5_changePassword_success demoBcrypt demoJwt demoStore1 demoCpDto
    ⟨some "1", some 1, some 36001, "1", "a@x.com", "alice"⟩ demoUser
    demoBcrypt_sound rfl rfl (by decide) (by decide) (by decide) (by decide)

/-- C5 counterexample: at a concrete input, a successful `changePassword`
returns in `data` the record still carrying the OLD hash, while the store
now holds the record with the NEW hash — the claim that it returns the
updated record is false. -/
theorem C5_counterexample :
    (AuthService.changePassword demoBcrypt demoJwt demoStore1 demoCpDto).result
        = Except.ok ⟨some demoUser, "Password changed successfully"⟩ ∧
    (AuthService.changePassword demoBcrypt demoJwt demoStore1 demoCpDto).store.findOneByEmail
        "a@x.com" = some (demoUser.withPassword "bc:NewSecret9") ∧
    demoUser ≠ demoUser.withPassword "bc:NewSecret9" := by
  refine ⟨by decide, by decide, by decide⟩

/-- C7 (amended): `registerUser` and `changePassword` only ever persist
hasher-produced hashes — any document in the store after the call is an
untouched old document or carries the bcrypt hash of the submitted (new)
password — and `updateUser` with no password field preserves every stored
password; but `updateUser` persists a submitted password verbatim, so an
update carrying a password stores the submitted plaintext, violating the
never-plaintext invariant. -/
theorem C7_password_hashing_policy :
    (∀ (τ : Type) (B : Bcrypt) (J : JwtService τ) (s : Store) (dto : RegisterUserDto),
      ∀ v ∈ (AuthService.registerUser B J s dto).store.users,
        v ∈ s.users ∨ v.password = B.hashSync dto.password 10) ∧
    (∀ (τ : Type) (B : Bcrypt) (J : JwtService τ) (s : Store) (dto : ChangePasswordDto τ),
      ∀ v ∈ (AuthService.changePassword B J s dto).store.users,
        v ∈ s.users ∨ v.password = B.hashSync dto.newPassword 10) ∧
    (∀ (s : Store) (dto : UpdateUserDto), dto.password = none →
      ∀ v ∈ (AuthService.updateUser s dto).store.users,
        ∃ w ∈ s.users, v.password = w.password) ∧
    (∀ (s : Store) (dto : UpdateUserDto) (p : String), dto.password = some p →
      ∀ v ∈ (AuthService.updateUser s dto).store.users,
        v ∈ s.users ∨ v.password = p) := by
  refine ⟨?_, ?_, ?_, ?_⟩
  · intro τ B J s dto v hv
    cases h : s.findOneByEmail dto.email with
    | some u =>
        simp [AuthService.registerUser, h] at hv
        exact Or.inl hv
    | none =>
        simp [AuthService.registerUser, h, Store.create] at hv
        rcases hv with hv | hv
        · exact Or.inl hv
        · subst hv; exact Or.inr rfl
  · intro τ B J s dto v hv
    cases h1 : J.verify dto.token with
    | error m =>
        simp [AuthService.changePassword, h1] at hv
        exact Or.inl hv
    | ok decoded =>
        cases h2 : s.findOneByUsername decoded.username with
        | none =>
            simp [AuthService.changePassword, h1, h2] at hv
            exact Or.inl hv
        | some u =>
            cases h3 : B.compareSync dto.password u.password with
            | false =>
                simp [AuthService.changePassword, h1, h2, h3] at hv
                exact Or.inl hv
            | true =>
                have hv2 : v ∈ (s.findOneAndUpdateById u.uid
                    (fun w => w.withPassword (B.hashSync dto.newPassword 10))).2.users := by
                  simpa [AuthService.changePassword, h1, h2, h3] using hv
                rcases Store.mem_findOneAndUpdateById s u.uid _ v hv2 with h | ⟨w, hw, hvw⟩
                · exact Or.inl h
                · subst hvw; exact Or.inr rfl
  · intro s dto hnone v hv
    have hv2 : v ∈ (s.findOneAndUpdateById dto.id dto.applyTo).2.users := by
      cases hm : (s.findOneAndUpdateById dto.id dto.applyTo).1 with
      | none => simpa [AuthService.updateUser, hm] using hv
      | some w => simpa [AuthService.updateUser, hm] using hv
    rcases Store.mem_findOneAndUpdateById s dto.id _ v hv2 with h | ⟨w, hw, hvw⟩
    · exact ⟨v, h, rfl⟩
    · subst hvw
      exact ⟨w, hw, by simp [UpdateUserDto.applyTo, hnone]⟩
  · intro s dto p hsome v hv
    have hv2 : v ∈ (s.findOneAndUpdateById dto.id dto.applyTo).2.users := by
      cases hm : (s.findOneAndUpdateById dto.id dto.applyTo).1 with
      | none => simpa [AuthService.updateUser, hm] using hv
      | some w => simpa [AuthService.updateUser, hm] using hv
    rcases Store.mem_findOneAndUpdateById s dto.id _ v hv2 with h | ⟨w, hw, hvw⟩
    · exact Or.inl h
    · subst hvw
      exact Or.inr (by simp [UpdateUserDto.applyTo, hsome])

/-- C7 witness: the update-with-password conjunct of the theorem applied to
the concrete store after `updateUser` wrote the submitted password. -/
theorem C7_witness :
    (⟨1, "a@x.com", "alice", "PlainText1"⟩ : User) ∈ demoStore1.users ∨
    (⟨1, "a@x.com", "alice", "PlainText1"⟩ : User).password = "PlainText1" :=
  C7_password_hashing_policy.2.2.2 demoStore1 demoUpdateDto "PlainText1" rfl
    ⟨1, "a@x.com", "alice", "PlainText1"⟩ (by decide)

/-- C7 counterexample: `updateUser` carrying a password persists it
verbatim — after the concrete update, the stored document's password field
IS the submitted plaintext "PlainText1", not a hasher output — so not every
operation preserves the hashed-password invariant. -/
theorem C7_counterexample :
    (AuthService.updateUser demoStore1 demoUpdateDto).result.isOk = true ∧
    (AuthService.updateUser demoStore1 demoUpdateDto).store.users
        = [⟨1, "a@x.com", "alice", "PlainText1"⟩] ∧
    demoUpdateDto.password = some "PlainText1" ∧
    demoStore1.users = [⟨1, "a@x.com", "alice", "bc:Secret123"⟩] := by
  refine ⟨by decide, by decide, by decide, by decide⟩

/-- C8 (amended): every failure of `registerUser`, `loginUser`,
`verifyUser` and `changePassword` is surfaced synchronously as a structured
error with status 400 and a message, after the message was logged; every
failure of `updateUser` is also a structured status-400 error, but it is
NOT logged — `updateUser` has no catch block (so an unexpected store
failure there would also propagate unwrapped). -/
theorem C8_error_shape_and_logging :
    (∀ (τ : Type) (B : Bcrypt) (J : JwtService τ) (s : Store)
        (dto : RegisterUserDto) (e : RpcError),
      (AuthService.registerUser B J s dto).result = Except.error e →
      e.status = 400 ∧ (AuthService.registerUser B J s dto).log = [e.message]) ∧
    (∀ (τ : Type) (B : Bcrypt) (J : JwtService τ) (s : Store)
        (dto : LoginUserDto) (e : RpcError),
      (AuthService.loginUser B J s dto).result = Except.error e →
      e.status = 400 ∧ (AuthService.loginUser B J s dto).log = [e.message]) ∧
    (∀ (τ : Type) (J : JwtService τ) (s : Store) (t : τ) (e : RpcError),
      (AuthService.verifyUser J s t).result = Except.error e →
      e.status = 400 ∧ (AuthService.verifyUser J s t).log = [e.message]) ∧
    (∀ (τ : Type) (B : Bcrypt) (J : JwtService τ) (s : Store)
        (dto : ChangePasswordDto τ) (e : RpcError),
      (AuthService.changePassword B J s dto).result = Except.error e →
      e.status = 400 ∧ (AuthService.changePassword B J s dto).log = [e.message]) ∧
    (∀ (s : Store) (dto : UpdateUserDto) (e : RpcError),
      (AuthService.updateUser s dto).result = Except.error e →
      e.status = 400 ∧ (AuthService.updateUser s dto).log = []) := by
  refine ⟨?_, ?_, ?_, ?_, ?_⟩
  · intro τ B J s dto e he
    obtain ⟨es, em⟩ := e
    cases h : s.findOneByEmail dto.email with
    | some u =>
        simp [AuthService.registerUser, h] at he ⊢
        obtain ⟨h1, h2⟩ := he
        subst h1
        subst h2
        exact ⟨rfl, rfl⟩
    | none => simp [AuthService.registerUser, h, Store.create] at he
  · intro τ B J s dto e he
    obtain ⟨es, em⟩ := e
    cases h : s.findOneByEmail dto.email with
    | none =>
        simp [AuthService.loginUser, h] at he ⊢
        obtain ⟨h1, h2⟩ := he
        subst h1
        subst h2
        exact ⟨rfl, rfl⟩
    | some u =>
        cases hc : B.compareSync dto.password u.password with
        | true => simp [AuthService.loginUser, h, hc] at he
        | false =>
            simp [AuthService.loginUser, h, hc] at he ⊢
            obtain ⟨h1, h2⟩ := he
            subst h1
            subst h2
            exact ⟨rfl, rfl⟩
  · intro τ J s t e he
    obtain ⟨es, em⟩ := e
    cases h : J.verify t with
    | error m =>
        simp [AuthService.verifyUser, h] at he ⊢
        obtain ⟨h1, h2⟩ := he
        subst h1
        subst h2
        exact ⟨rfl, rfl⟩
    | ok c => simp [AuthService.verifyUser, h] at he
  · intro τ B J s dto e he
    obtain ⟨es, em⟩ := e
    cases h1 : J.verify dto.token with
    | error m =>
        simp [AuthService.changePassword, h1] at he ⊢
        obtain ⟨h1, h2⟩ := he
        subst h1
        subst h2
        exact ⟨rfl, rfl⟩
    | ok decoded =>
        cases h2 : s.findOneByUsername decoded.username with
        | none =>
            simp [AuthService.changePassword, h1, h2] at he ⊢
            obtain ⟨h1, h2⟩ := he
            subst h1
            subst h2
            exact ⟨rfl, rfl⟩
        | some u =>
            cases h3 : B.compareSync dto.password u.password with
            | true => simp [AuthService.changePassword, h1, h2, h3] at he
            | false =>
                simp [AuthService.changePassword, h1, h2, h3] at he ⊢
                obtain ⟨h1, h2⟩ := he
                subst h1
                subst h2
                exact ⟨rfl, rfl⟩
  · intro s dto e he
    obtain ⟨es, em⟩ := e
    cases hm : (s.findOneAndUpdateById dto.id dto.applyTo).1 with
    | some w => simp [AuthService.updateUser, hm] at he
    | none =>
        simp [AuthService.updateUser, hm] at he ⊢
        obtain ⟨h1, h2⟩ := he
        subst h1
        exact rfl

/-- C8 witness: re-registering an existing email surfaces the structured
error `⟨400, "User already exists"⟩` and the message was logged first. -/
theorem C8_witness :
    (⟨400, "User already exists"⟩ : RpcError).status = 400 ∧
    (AuthService.registerUser demoBcrypt demoJwt demoStore1 demoRegDto).log
        = [(⟨400, "User already exists"⟩ : RpcError).message] :=
  C8_error_shape_and_logging.1 (Option JwtPayload) demoBcrypt demoJwt demoStore1
    demoRegDto ⟨400, "User already exists"⟩ (by decide)

/-- C8 counterexample: `updateUser` on a missing id surfaces a structured
status-400 failure with NOTHING logged — there is no catch block around it —
so it is false that every failure is surfaced only after being logged. -/
theorem C8_counterexample :
    (AuthService.updateUser demoStoreEmpty demoUpdateDto).result
        = Except.error ⟨400, "User\x27s information could not be updated"⟩ ∧
    (AuthService.updateUser demoStoreEmpty demoUpdateDto).log = [] := by
  refine ⟨by decide, by decide⟩
